import Mathlib

/-!
Shallow embedding of the game-loop simulation engine of
`EndlessDriverGame/game.js` (class `EndlessDriverGame`).

Numbers: JavaScript numbers are modelled as `ℚ`.  Every numeric value that
the embedded code paths manipulate (speeds in steps of 0.5, positions that
are sums of such speeds, quarter-fraction lane positions, the 0.2 easing
factor on values that are already at their target) is an exact dyadic or
decimal fraction, so `ℚ` agrees with IEEE doubles on these traces.
Integer-valued counters (`score`, `frameCount`, `obstacleSpawnTimer`,
`frameCountForFPS`) are modelled as `ℕ`, the lane index as `ℤ`.

`Math.random()`-driven lane selection in `spawnObstacle` is modelled by an
oracle stream `laneStream : ℕ → ℕ` with a cursor `randIdx`; the value is
taken `% 3`, mirroring `Math.floor(Math.random() * 3) ∈ {0, 1, 2}`.

DOM, canvas and rendering statements (`document.getElementById`,
`ctx.fillRect`, `render`, `drawRoad`) are presentation effects with no
bearing on simulation state and are omitted.  The `color` fields of player
and obstacle records are render-only data and are likewise omitted.
-/

set_option maxRecDepth 4000000

namespace EndlessDriver

/-- A game entity.  `player` and the obstacle records in `game.js` have the
same data fields `x`, `y`, `width`, `height`, `lane` (plus a render-only
`color`). -/
structure Entity where
  x : ℚ
  y : ℚ
  width : ℚ
  height : ℚ
  lane : ℤ
  deriving Repr, DecidableEq

/-- The engine state: the simulation-relevant fields of the
`EndlessDriverGame` instance.  `keysLeft` abbreviates the keyboard test
`keys['ArrowLeft'] || keys['a'] || keys['A']`, `keysRight` the analogous
right-hand test; `touchActive`/`touchX` are `this.touchInput.active` /
`this.touchInput.x`. -/
structure GameState where
  gameState : String
  score : ℕ
  gameSpeed : ℚ
  frameCount : ℕ
  fps : ℤ
  lastFrameTime : ℚ
  frameTimeAccumulator : ℚ
  frameCountForFPS : ℕ
  player : Entity
  obstacles : List Entity
  obstacleSpawnTimer : ℕ
  obstacleSpawnInterval : ℚ
  gameWidth : ℚ
  gameHeight : ℚ
  pixelRatio : ℚ
  keysLeft : Bool
  keysRight : Bool
  touchActive : Bool
  touchX : ℚ
  swipeStartX : ℚ
  swipeThreshold : ℚ
  laneStream : ℕ → ℕ
  randIdx : ℕ

/-- The lane array `this.lanes = [0.25, 0.5, 0.75]` (relative lane-centre
positions). -/
def lanes : List ℚ := [1/4, 1/2, 3/4]

/-- From `game.js`, `checkCollision(player, obstacle)`: strict axis-aligned
bounding-box overlap test. -/
def checkCollision (player obstacle : Entity) : Bool :=
  decide (player.x < obstacle.x + obstacle.width) &&
  decide (player.x + player.width > obstacle.x) &&
  decide (player.y < obstacle.y + obstacle.height) &&
  decide (player.y + player.height > obstacle.y)

/-- The obstacle record built by `spawnObstacle` for a given lane:
`{ x: lanes[lane] * gameWidth - 35, y: -80, width: 70, height: 80, lane }`. -/
def newObstacle (lane : ℕ) (gameWidth : ℚ) : Entity :=
  { x := lanes.getD lane 0 * gameWidth - 35
    y := -80
    width := 70
    height := 80
    lane := (lane : ℤ) }

/-- From `game.js`, `spawnObstacle()`: picks a lane from the random oracle
(mirroring `Math.floor(Math.random() * 3)`) and pushes a freshly built
obstacle record onto `this.obstacles`. -/
def spawnObstacle (s : GameState) : GameState :=
  { s with
    obstacles := s.obstacles ++ [newObstacle (s.laneStream s.randIdx % 3) s.gameWidth]
    randIdx := s.randIdx + 1 }

/-- The per-tick vertical advancement `obstacle.y += this.gameSpeed`. -/
def advance (gameSpeed : ℚ) (o : Entity) : Entity :=
  { o with y := o.y + gameSpeed }

/-- From `game.js`, `gameOver()`: sets `gameState = 'gameOver'` (the DOM
write of the final score displays the current `this.score`). -/
def gameOverState (s : GameState) : GameState :=
  { s with gameState := "gameOver" }

/-- Result of the obstacle-update loop of `update()`: the final contents of
`this.obstacles`, the final `this.score`, and whether a collision ended the
loop. -/
structure ObsResult where
  obstacles : List Entity
  score : ℕ
  hit : Bool
  deriving Repr, DecidableEq

/-- The `for (let i = this.obstacles.length - 1; i >= 0; i--)` loop of
`update()`.  The loop walks the array from the last index down, so its
argument here is the reversed obstacle list; `acc` accumulates already
processed survivors (prepending restores the original array order).  Each
visited obstacle is advanced by `gameSpeed`; if its new `y` exceeds
`gameHeight` it is spliced out and the score rises by 10 (`continue` skips
its collision test); otherwise it is collision-tested, and an overlap
returns immediately — the collided obstacle stays in the array (advanced)
and the not-yet-visited lower indices stay unadvanced. -/
def processObstacles (player : Entity) (gameSpeed gameHeight : ℚ) :
    List Entity → List Entity → ℕ → ObsResult
  | [], acc, score => ⟨acc, score, false⟩
  | o :: rest, acc, score =>
    if (advance gameSpeed o).y > gameHeight then
      processObstacles player gameSpeed gameHeight rest acc (score + 10)
    else if checkCollision player (advance gameSpeed o) then
      ⟨rest.reverse ++ advance gameSpeed o :: acc, score, true⟩
    else
      processObstacles player gameSpeed gameHeight rest (advance gameSpeed o :: acc) score

/-- The opening statements of `update()` in `game.js`, before the obstacle
loop: increment the frame counter, advance the spawn timer, and when the
timer has reached the current spawn interval call `spawnObstacle()` and
reset the timer to 0. -/
def preLoop (s : GameState) : GameState :=
  let s1 := { s with frameCount := s.frameCount + 1 }
  let s2 := { s1 with obstacleSpawnTimer := s1.obstacleSpawnTimer + 1 }
  if ((s2.obstacleSpawnTimer : ℚ) ≥ s2.obstacleSpawnInterval) then
    { spawnObstacle s2 with obstacleSpawnTimer := 0 }
  else s2

/-- From `game.js`, `update()`: increment the frame counter, advance the
spawn timer and spawn when it reaches the interval (`preLoop`), run the
obstacle loop (advance / despawn-and-score / collision), and — unless a
collision returned early — apply the difficulty step every 600 frames. -/
def update (s : GameState) : GameState :=
  let s3 := preLoop s
  let r := processObstacles s3.player s3.gameSpeed s3.gameHeight s3.obstacles.reverse [] s3.score
  let s4 := { s3 with obstacles := r.obstacles, score := r.score }
  if r.hit then gameOverState s4
  else if s4.frameCount % 600 == 0 then
    { s4 with
      gameSpeed := s4.gameSpeed + 1/2
      obstacleSpawnInterval := max 50 (s4.obstacleSpawnInterval - 5) }
  else s4

/-- The first statement group of `handleInput()`: the
`ArrowLeft`/`a`/`A` branch, gated on `frameCount % 10 === 0` and on
`lane > 0`. -/
def keyboardLeft (s : GameState) : GameState :=
  if s.keysLeft && decide (s.player.lane > 0) then
    if s.frameCount % 10 == 0 then
      { s with player := { s.player with lane := s.player.lane - 1 } }
    else s
  else s

/-- The second statement group of `handleInput()`: the
`ArrowRight`/`d`/`D` branch, gated on `frameCount % 10 === 0` and on
`lane < 2`. -/
def keyboardRight (s : GameState) : GameState :=
  if s.keysRight && decide (s.player.lane < 2) then
    if s.frameCount % 10 == 0 then
      { s with player := { s.player with lane := s.player.lane + 1 } }
    else s
  else s

/-- The joystick statement group of `handleInput()`: with an active touch,
a deflection beyond the 20px threshold moves one lane (left checked first),
gated on `frameCount % 10 === 0` and bounds-checked. -/
def joystick (s : GameState) : GameState :=
  if s.touchActive then
    if decide (s.touchX < -20) && decide (s.player.lane > 0) then
      if s.frameCount % 10 == 0 then
        { s with player := { s.player with lane := s.player.lane - 1 } }
      else s
    else if decide (s.touchX > 20) && decide (s.player.lane < 2) then
      if s.frameCount % 10 == 0 then
        { s with player := { s.player with lane := s.player.lane + 1 } }
      else s
    else s
  else s

/-- The smooth-lane-transition statements of `handleInput()`:
`player.x += (targetX - player.x) * 0.2` with
`targetX = lanes[lane] * gameWidth - width / 2`. -/
def easePlayerX (s : GameState) : GameState :=
  { s with player := { s.player with
      x := s.player.x +
        (lanes.getD s.player.lane.toNat 0 * s.gameWidth - s.player.width / 2
          - s.player.x) * (1/5) } }

/-- From `game.js`, `handleInput()`: keyboard lane change, joystick lane
change (both gated on `frameCount % 10 === 0` and bounds-checked at each
mutation site), then the eased approach of the player's `x` towards the
lane target — the four statement groups in source order. -/
def handleInput (s : GameState) : GameState :=
  easePlayerX (joystick (keyboardRight (keyboardLeft s)))

@[simp] theorem keyboardLeft_frameCount (s : GameState) :
    (keyboardLeft s).frameCount = s.frameCount := by
  unfold keyboardLeft; split_ifs <;> rfl

@[simp] theorem keyboardRight_frameCount (s : GameState) :
    (keyboardRight s).frameCount = s.frameCount := by
  unfold keyboardRight; split_ifs <;> rfl

@[simp] theorem joystick_frameCount (s : GameState) :
    (joystick s).frameCount = s.frameCount := by
  unfold joystick; split_ifs <;> rfl

@[simp] theorem easePlayerX_lane (s : GameState) :
    (easePlayerX s).player.lane = s.player.lane := rfl

/-- The keyboard-left stage either leaves the lane alone or, on a debounce
tick with `lane > 0`, decrements it. -/
theorem keyboardLeft_lane (s : GameState) :
    (keyboardLeft s).player.lane = s.player.lane ∨
      ((keyboardLeft s).player.lane = s.player.lane - 1 ∧ 0 < s.player.lane ∧
        s.frameCount % 10 = 0) := by
  unfold keyboardLeft
  split_ifs with h1 h2
  · simp only [Bool.and_eq_true, decide_eq_true_eq] at h1
    exact Or.inr ⟨rfl, h1.2, by simpa using h2⟩
  · exact Or.inl rfl
  · exact Or.inl rfl

/-- The keyboard-right stage either leaves the lane alone or, on a debounce
tick with `lane < 2`, increments it. -/
theorem keyboardRight_lane (s : GameState) :
    (keyboardRight s).player.lane = s.player.lane ∨
      ((keyboardRight s).player.lane = s.player.lane + 1 ∧ s.player.lane < 2 ∧
        s.frameCount % 10 = 0) := by
  unfold keyboardRight
  split_ifs with h1 h2
  · simp only [Bool.and_eq_true, decide_eq_true_eq] at h1
    exact Or.inr ⟨rfl, h1.2, by simpa using h2⟩
  · exact Or.inl rfl
  · exact Or.inl rfl

/-- The joystick stage moves at most one lane, only on a debounce tick and
within bounds. -/
theorem joystick_lane (s : GameState) :
    (joystick s).player.lane = s.player.lane ∨
      ((joystick s).player.lane = s.player.lane - 1 ∧ 0 < s.player.lane ∧
        s.frameCount % 10 = 0) ∨
      ((joystick s).player.lane = s.player.lane + 1 ∧ s.player.lane < 2 ∧
        s.frameCount % 10 = 0) := by
  unfold joystick
  split_ifs with h0 h1 h2 h3 h4
  · simp only [Bool.and_eq_true, decide_eq_true_eq] at h1
    exact Or.inr (Or.inl ⟨rfl, h1.2, by simpa using h2⟩)
  · exact Or.inl rfl
  · simp only [Bool.and_eq_true, decide_eq_true_eq] at h3
    exact Or.inr (Or.inr ⟨rfl, h3.2, by simpa using h4⟩)
  · exact Or.inl rfl
  · exact Or.inl rfl
  · exact Or.inl rfl

/-- With the left keys up, the keyboard-left stage is the identity. -/
theorem keyboardLeft_id (s : GameState) (h : s.keysLeft = false) :
    keyboardLeft s = s := by
  simp [keyboardLeft, h]

/-- With the right keys up, the keyboard-right stage is the identity. -/
theorem keyboardRight_id (s : GameState) (h : s.keysRight = false) :
    keyboardRight s = s := by
  simp [keyboardRight, h]

/-- With no touch active, the joystick stage is the identity. -/
theorem joystick_id (s : GameState) (h : s.touchActive = false) :
    joystick s = s := by
  simp [joystick, h]

/-- When the lane-1 player already sits at its target x (180 in a 400-wide
track), the easing stage is the identity. -/
theorem easePlayerX_id (s : GameState) (hx : s.player.x = 180)
    (hw : s.player.width = 40) (hl : s.player.lane = 1)
    (hgw : s.gameWidth = 400) : easePlayerX s = s := by
  obtain ⟨gs, sc, sp, fc, fps, lft, fta, fcf, ⟨px, py, pw, ph, pl⟩, obs, ot, oi,
    gw, gh, pr, kl, kr, ta, tx, ssx, st, ls, ri⟩ := s
  dsimp only at hx hw hl hgw
  subst hx hw hl hgw
  simp only [easePlayerX]
  norm_num [lanes]

/-- The `touchstart` swipe listener: records the starting x of a swipe. -/
def onTouchStart (s : GameState) (clientX : ℚ) : GameState :=
  { s with swipeStartX := clientX }

/-- The `touchend` swipe listener: if the swipe moved farther than the
threshold, change lane by one in the swipe direction (bounds-checked);
no debouncing of any kind. -/
def onTouchEnd (s : GameState) (clientX : ℚ) : GameState :=
  let swipeDelta := clientX - s.swipeStartX
  if |swipeDelta| > s.swipeThreshold then
    if decide (swipeDelta > 0) && decide (s.player.lane < 2) then
      { s with player := { s.player with lane := s.player.lane + 1 } }
    else if decide (swipeDelta < 0) && decide (s.player.lane > 0) then
      { s with player := { s.player with lane := s.player.lane - 1 } }
    else s
  else s

/-- From `game.js`, `startGame()`: the state reset performed by the start and
restart buttons.  Note: `obstacleSpawnInterval` is not among the fields it
resets. -/
def startGame (s : GameState) : GameState :=
  { s with
    gameState := "playing"
    score := 0
    gameSpeed := 5
    obstacles := []
    obstacleSpawnTimer := 0
    player := { s.player with lane := 1 }
    frameCount := 0 }

/-- JavaScript `Math.round`: rounds to the nearest integer, halves toward
positive infinity. -/
def jsRound (q : ℚ) : ℤ := ⌊q + 1 / 2⌋

/-- From `game.js`, `updateFPS()`: accumulates the wall-clock delta since the
previous call (`now` is the `performance.now()` reading); once at least
500ms have accumulated, stores the rounded observed rate in `fps` and
resets the accumulators. -/
def updateFPS (s : GameState) (now : ℚ) : GameState :=
  let delta := now - s.lastFrameTime
  let s1 := { s with lastFrameTime := now }
  let s2 := { s1 with
    frameTimeAccumulator := s1.frameTimeAccumulator + delta
    frameCountForFPS := s1.frameCountForFPS + 1 }
  if s2.frameTimeAccumulator ≥ 500 then
    { s2 with
      fps := jsRound ((s2.frameCountForFPS : ℚ) * 1000 / s2.frameTimeAccumulator)
      frameTimeAccumulator := 0
      frameCountForFPS := 0 }
  else s2

/-- One `gameLoop()` animation-frame callback: a no-op unless the state is
`'playing'`, otherwise `handleInput()` followed by `update()`.  `render()`
(pure drawing) and `updateFPS()` (which touches only the fps-measurement
fields, see `updateFPS`) are omitted from the iterated simulation step. -/
def tick (s : GameState) : GameState :=
  if s.gameState == "playing" then update (handleInput s) else s

/-- Iterates `tick` for a number of animation frames. -/
def runTicks : ℕ → GameState → GameState
  | 0, s => s
  | n + 1, s => runTicks n (tick s)

/-!  Concrete environments used by witnesses and counterexamples. -/

/-- The engine as left by the constructor and `resizeCanvas()` for a
400-wide, `H`-high container (`laneWidth` is never read by the simulation
and is omitted): `score = 0`, `gameSpeed = 5`, `frameCount = 0`,
`obstacleSpawnInterval = 100`, player of size 40×60 centred in lane 1
(`x = 0.5 * 400 - 20 = 180`, `y = H - 60 - 50`), no obstacles, no input
held.  The random oracle constantly selects lane 0, so every spawned
obstacle sits at `x = 0.25 * 400 - 35 = 65` with width 70 — horizontally
disjoint from the lane-1 player (`x ∈ [180, 220]`), hence no collision can
occur in runs from this environment while no input is held. -/
def idleEnv (H : ℚ) : GameState :=
  { gameState := "loading", score := 0, gameSpeed := 5, frameCount := 0,
    fps := 60, lastFrameTime := 0, frameTimeAccumulator := 0, frameCountForFPS := 0,
    player := { x := 180, y := H - 110, width := 40, height := 60, lane := 1 },
    obstacles := [], obstacleSpawnTimer := 0, obstacleSpawnInterval := 100,
    gameWidth := 400, gameHeight := H, pixelRatio := 2,
    keysLeft := false, keysRight := false, touchActive := false, touchX := 0,
    swipeStartX := 0, swipeThreshold := 50, laneStream := fun _ => 0, randIdx := 0 }

/-- A run just started (start button pressed) in a 400×`H` container. -/
def freshRun (H : ℚ) : GameState := startGame (idleEnv H)

/-!  Field-preservation lemmas for the engine's transition functions. -/

@[simp] theorem spawnObstacle_gameSpeed (s : GameState) :
    (spawnObstacle s).gameSpeed = s.gameSpeed := rfl

@[simp] theorem spawnObstacle_player (s : GameState) :
    (spawnObstacle s).player = s.player := rfl

@[simp] theorem spawnObstacle_interval (s : GameState) :
    (spawnObstacle s).obstacleSpawnInterval = s.obstacleSpawnInterval := rfl

@[simp] theorem spawnObstacle_gameHeight (s : GameState) :
    (spawnObstacle s).gameHeight = s.gameHeight := rfl

@[simp] theorem spawnObstacle_gameState (s : GameState) :
    (spawnObstacle s).gameState = s.gameState := rfl

@[simp] theorem spawnObstacle_score (s : GameState) :
    (spawnObstacle s).score = s.score := rfl

@[simp] theorem spawnObstacle_frameCount (s : GameState) :
    (spawnObstacle s).frameCount = s.frameCount := rfl

@[simp] theorem spawnObstacle_obstacles (s : GameState) :
    (spawnObstacle s).obstacles
      = s.obstacles ++ [newObstacle (s.laneStream s.randIdx % 3) s.gameWidth] := rfl

theorem preLoop_def (s : GameState) :
    preLoop s =
      if ((s.obstacleSpawnTimer + 1 : ℕ) : ℚ) ≥ s.obstacleSpawnInterval then
        { spawnObstacle
            { s with frameCount := s.frameCount + 1,
                     obstacleSpawnTimer := s.obstacleSpawnTimer + 1 } with
          obstacleSpawnTimer := 0 }
      else
        { s with frameCount := s.frameCount + 1,
                 obstacleSpawnTimer := s.obstacleSpawnTimer + 1 } := by
  simp only [preLoop]

@[simp] theorem preLoop_gameSpeed (s : GameState) :
    (preLoop s).gameSpeed = s.gameSpeed := by
  rw [preLoop_def]; split <;> rfl

@[simp] theorem preLoop_player (s : GameState) :
    (preLoop s).player = s.player := by
  rw [preLoop_def]; split <;> rfl

@[simp] theorem preLoop_interval (s : GameState) :
    (preLoop s).obstacleSpawnInterval = s.obstacleSpawnInterval := by
  rw [preLoop_def]; split <;> rfl

@[simp] theorem preLoop_gameHeight (s : GameState) :
    (preLoop s).gameHeight = s.gameHeight := by
  rw [preLoop_def]; split <;> rfl

@[simp] theorem preLoop_gameState (s : GameState) :
    (preLoop s).gameState = s.gameState := by
  rw [preLoop_def]; split <;> rfl

@[simp] theorem preLoop_score (s : GameState) :
    (preLoop s).score = s.score := by
  rw [preLoop_def]; split <;> rfl

@[simp] theorem preLoop_frameCount (s : GameState) :
    (preLoop s).frameCount = s.frameCount + 1 := by
  rw [preLoop_def]; split <;> rfl

@[simp] theorem gameOverState_gameSpeed (s : GameState) :
    (gameOverState s).gameSpeed = s.gameSpeed := rfl

@[simp] theorem gameOverState_interval (s : GameState) :
    (gameOverState s).obstacleSpawnInterval = s.obstacleSpawnInterval := rfl

@[simp] theorem gameOverState_score (s : GameState) :
    (gameOverState s).score = s.score := rfl

@[simp] theorem gameOverState_timer (s : GameState) :
    (gameOverState s).obstacleSpawnTimer = s.obstacleSpawnTimer := rfl

@[simp] theorem gameOverState_frameCount (s : GameState) :
    (gameOverState s).frameCount = s.frameCount := rfl

@[simp] theorem spawnObstacle_gameWidth (s : GameState) :
    (spawnObstacle s).gameWidth = s.gameWidth := rfl

@[simp] theorem spawnObstacle_keysLeft (s : GameState) :
    (spawnObstacle s).keysLeft = s.keysLeft := rfl

@[simp] theorem spawnObstacle_keysRight (s : GameState) :
    (spawnObstacle s).keysRight = s.keysRight := rfl

@[simp] theorem spawnObstacle_touchActive (s : GameState) :
    (spawnObstacle s).touchActive = s.touchActive := rfl

@[simp] theorem spawnObstacle_laneStream (s : GameState) :
    (spawnObstacle s).laneStream = s.laneStream := rfl

@[simp] theorem preLoop_gameWidth (s : GameState) :
    (preLoop s).gameWidth = s.gameWidth := by
  rw [preLoop_def]; split <;> rfl

@[simp] theorem preLoop_keysLeft (s : GameState) :
    (preLoop s).keysLeft = s.keysLeft := by
  rw [preLoop_def]; split <;> rfl

@[simp] theorem preLoop_keysRight (s : GameState) :
    (preLoop s).keysRight = s.keysRight := by
  rw [preLoop_def]; split <;> rfl

@[simp] theorem preLoop_touchActive (s : GameState) :
    (preLoop s).touchActive = s.touchActive := by
  rw [preLoop_def]; split <;> rfl

@[simp] theorem preLoop_laneStream (s : GameState) :
    (preLoop s).laneStream = s.laneStream := by
  rw [preLoop_def]; split <;> rfl

@[simp] theorem advance_x (v : ℚ) (o : Entity) : (advance v o).x = o.x := rfl

@[simp] theorem advance_width (v : ℚ) (o : Entity) : (advance v o).width = o.width := rfl

/-- Unfolding of `update` through `preLoop`'s field-preservation facts. -/
theorem update_eq (s : GameState) :
    update s =
      (let r := processObstacles s.player s.gameSpeed s.gameHeight
          (preLoop s).obstacles.reverse [] s.score
       let s4 := { preLoop s with obstacles := r.obstacles, score := r.score }
       if r.hit then gameOverState s4
       else if s4.frameCount % 600 == 0 then
         { s4 with
           gameSpeed := s4.gameSpeed + 1/2
           obstacleSpawnInterval := max 50 (s4.obstacleSpawnInterval - 5) }
       else s4) := by
  simp only [update, preLoop_player, preLoop_gameSpeed, preLoop_gameHeight, preLoop_score]

/-- Auxiliary: appending run segments. -/
theorem runTicks_add (m n : ℕ) (s : GameState) :
    runTicks (m + n) s = runTicks n (runTicks m s) := by
  induction m generalizing s with
  | zero => rw [Nat.zero_add]; rfl
  | succ m ih =>
    have h1 : m + 1 + n = (m + n) + 1 := by omega
    rw [h1]
    show runTicks (m + n) (tick s) = runTicks n (runTicks m (tick s))
    exact ih (tick s)

/-- Auxiliary: peeling the last tick of a run. -/
theorem runTicks_succ (n : ℕ) (s : GameState) :
    runTicks (n + 1) s = tick (runTicks n s) := by
  induction n generalizing s with
  | zero => rfl
  | succ n ih =>
    show runTicks (n + 1) (tick s) = tick (runTicks (n + 1) s)
    rw [ih (tick s)]
    rfl

/-- A quiet engine configuration: state `playing`, lane-1 player at its
horizontal target in a 400-wide track, no input held, lane oracle constant
0, every active obstacle in lane 0 (x 65, width 70).  Since the player
spans x ∈ [180, 220] and every obstacle x ∈ [65, 135], `checkCollision`
can never fire, so a quiet run never ends. -/
def Calm (s : GameState) : Prop :=
  s.gameState = "playing" ∧
  s.player.x = 180 ∧ s.player.width = 40 ∧ s.player.lane = 1 ∧
  s.gameWidth = 400 ∧
  s.keysLeft = false ∧ s.keysRight = false ∧ s.touchActive = false ∧
  (∀ i, s.laneStream i = 0) ∧
  (∀ o ∈ s.obstacles, o.x = 65 ∧ o.width = 70)

/-- A lane-0 obstacle never overlaps the lane-1 player. -/
theorem checkCollision_calm (p o : Entity) (hp : p.x = 180) (ho : o.x = 65)
    (hw : o.width = 70) : checkCollision p o = false := by
  have h1 : ¬ (p.x < o.x + o.width) := by rw [hp, ho, hw]; norm_num
  simp [checkCollision, h1]

/-- Under `Calm`-style obstacles the loop never reports a collision and
keeps every obstacle in lane 0. -/
theorem processObstacles_calm (p : Entity) (v H : ℚ) (hp : p.x = 180) :
    ∀ (l acc : List Entity) (sc : ℕ),
      (∀ o ∈ l, o.x = 65 ∧ o.width = 70) →
      (∀ o ∈ acc, o.x = 65 ∧ o.width = 70) →
      (processObstacles p v H l acc sc).hit = false ∧
      (∀ o ∈ (processObstacles p v H l acc sc).obstacles, o.x = 65 ∧ o.width = 70) := by
  intro l
  induction l with
  | nil => intro acc sc _ hacc; simpa [processObstacles] using hacc
  | cons o rest ih =>
    intro acc sc hl hacc
    have hox : o.x = 65 := (hl o (List.mem_cons_self o rest)).1
    have how : o.width = 70 := (hl o (List.mem_cons_self o rest)).2
    have hrest : ∀ o1 ∈ rest, o1.x = 65 ∧ o1.width = 70 :=
      fun o1 ho1 => hl o1 (List.mem_cons_of_mem o ho1)
    have hnc : checkCollision p (advance v o) = false :=
      checkCollision_calm p (advance v o) hp (by simp [hox]) (by simp [how])
    by_cases h1 : (advance v o).y > H
    · have hstep : processObstacles p v H (o :: rest) acc sc
          = processObstacles p v H rest acc (sc + 10) := by
        simp [processObstacles, h1]
      rw [hstep]
      exact ih acc (sc + 10) hrest hacc
    · have hstep : processObstacles p v H (o :: rest) acc sc
          = processObstacles p v H rest (advance v o :: acc) sc := by
        simp [processObstacles, h1, hnc]
      rw [hstep]
      refine ih (advance v o :: acc) sc hrest ?_
      intro o1 ho1
      rcases List.mem_cons.mp ho1 with h | h
      · exact ⟨by simp [h, hox], by simp [h, how]⟩
      · exact hacc o1 h

/-- With no key held, no joystick touch, and the lane-1 player already at
its horizontal target (x 180 in a 400-wide track), `handleInput` is the
identity: no branch changes the lane, and the easing step moves `x` by
`(180 - 180) * 0.2 = 0`. -/
theorem handleInput_calm (s : GameState)
    (hkl : s.keysLeft = false) (hkr : s.keysRight = false)
    (hta : s.touchActive = false) (hx : s.player.x = 180)
    (hw : s.player.width = 40) (hl : s.player.lane = 1)
    (hgw : s.gameWidth = 400) : handleInput s = s := by
  rw [handleInput, keyboardLeft_id s hkl, keyboardRight_id s hkr, joystick_id s hta,
    easePlayerX_id s hx hw hl hgw]

/-- In a `Calm` state the spawn phase only ever adds lane-0 obstacles. -/
theorem preLoop_obstacles_calm (s : GameState) (hstream : ∀ i, s.laneStream i = 0)
    (hgw : s.gameWidth = 400) (hobs : ∀ o ∈ s.obstacles, o.x = 65 ∧ o.width = 70) :
    ∀ o ∈ (preLoop s).obstacles, o.x = 65 ∧ o.width = 70 := by
  rw [preLoop_def]
  split
  · intro o ho
    simp only [spawnObstacle_obstacles] at ho
    rcases List.mem_append.mp ho with h | h
    · exact hobs o h
    · have hnew : o = newObstacle 0 400 := by
        have : o = newObstacle (s.laneStream s.randIdx % 3) s.gameWidth := by
          simpa using h
        rw [this, hstream, hgw]
      rw [hnew]
      constructor <;> norm_num [newObstacle, lanes]
  · exact hobs

/-- One quiet tick: `Calm` is preserved, the frame counter advances by one,
and the scroll speed follows the unbounded `+0.5`-every-600-frames ramp. -/
theorem tick_calm (s : GameState) (h : Calm s) :
    Calm (tick s) ∧
    (tick s).frameCount = s.frameCount + 1 ∧
    (tick s).gameSpeed =
      (if (s.frameCount + 1) % 600 = 0 then s.gameSpeed + 1 / 2 else s.gameSpeed) := by
  obtain ⟨hgs, hx, hw, hl, hgw, hkl, hkr, hta, hstream, hobs⟩ := h
  have htick : tick s = update s := by
    rw [tick, if_pos (by rw [hgs]; rfl),
      handleInput_calm s hkl hkr hta hx hw hl hgw]
  have hcalm3 : ∀ o ∈ (preLoop s).obstacles, o.x = 65 ∧ o.width = 70 :=
    preLoop_obstacles_calm s hstream hgw hobs
  have hproc := processObstacles_calm s.player s.gameSpeed s.gameHeight hx
    (preLoop s).obstacles.reverse [] s.score
    (fun o ho => hcalm3 o (List.mem_reverse.mp ho)) (by simp)
  rw [htick, update_eq]
  dsimp only
  rw [hproc.1, if_neg (by decide : ¬ (false = true))]
  have hobs' : ∀ o ∈ (processObstacles s.player s.gameSpeed s.gameHeight
      (preLoop s).obstacles.reverse [] s.score).obstacles, o.x = 65 ∧ o.width = 70 :=
    hproc.2
  split
  · next h600 =>
    refine ⟨⟨by simp [hgs], by simp [hx], by simp [hw], by simp [hl], by simp [hgw],
      by simp [hkl], by simp [hkr], by simp [hta], by simp [hstream], hobs'⟩,
      by simp, ?_⟩
    rw [if_pos (by simpa using h600)]
    simp
  · next h600 =>
    refine ⟨⟨by simp [hgs], by simp [hx], by simp [hw], by simp [hl], by simp [hgw],
      by simp [hkl], by simp [hkr], by simp [hta], by simp [hstream], hobs'⟩,
      by simp, ?_⟩
    rw [if_neg (by simpa using h600)]
    simp

/-- The quiet run from a fresh start in a 400×20 container: after `n` ticks
the frame counter reads `n` and the scroll speed is `5 + 0.5 * (n / 600)` —
the difficulty ramp has no ceiling. -/
theorem calmRun (n : ℕ) :
    Calm (runTicks n (freshRun 20)) ∧
    (runTicks n (freshRun 20)).frameCount = n ∧
    (runTicks n (freshRun 20)).gameSpeed = 5 + ((n / 600 : ℕ) : ℚ) * (1 / 2) := by
  induction n with
  | zero =>
    refine ⟨⟨rfl, rfl, rfl, rfl, rfl, rfl, rfl, rfl, fun i => rfl, ?_⟩, rfl, ?_⟩
    · intro o ho
      exact absurd ho (List.not_mem_nil o)
    · show (5 : ℚ) = 5 + ((0 / 600 : ℕ) : ℚ) * (1 / 2)
      norm_num
  | succ n ih =>
    obtain ⟨hc, hfc, hsp⟩ := ih
    obtain ⟨hc', hfc', hsp'⟩ := tick_calm _ hc
    rw [runTicks_succ]
    refine ⟨hc', by rw [hfc', hfc], ?_⟩
    rw [hsp', hfc, hsp]
    by_cases h6 : (n + 1) % 600 = 0
    · rw [if_pos h6, Nat.succ_div_of_dvd (Nat.dvd_of_mod_eq_zero h6)]
      push_cast
      ring
    · rw [if_neg h6, Nat.succ_div_of_not_dvd (by omega)]

/-- Characterization of the obstacle loop when no collision occurs: the
score rises by 10 per exited obstacle, and the resulting array holds the
advanced survivors (prepended, in reverse processing order) in front of the
accumulator. -/
theorem processObstacles_no_hit (p : Entity) (v H : ℚ) :
    ∀ (l acc : List Entity) (sc : ℕ),
      (processObstacles p v H l acc sc).hit = false →
      (processObstacles p v H l acc sc).score
          = sc + 10 * l.countP (fun o => decide ((advance v o).y > H)) ∧
      (processObstacles p v H l acc sc).obstacles
          = ((l.filter (fun o => !decide ((advance v o).y > H))).map (advance v)).reverse
              ++ acc := by
  intro l
  induction l with
  | nil => intro acc sc _; simp [processObstacles]
  | cons o rest ih =>
    intro acc sc hfalse
    by_cases h1 : (advance v o).y > H
    · have hstep : processObstacles p v H (o :: rest) acc sc
          = processObstacles p v H rest acc (sc + 10) := by
        simp [processObstacles, h1]
      rw [hstep] at hfalse ⊢
      obtain ⟨hswipe, hobs⟩ := ih acc (sc + 10) hfalse
      constructor
      · rw [hswipe, List.countP_cons_of_pos _ _ (by simpa using h1)]
        ring
      · rw [hobs, List.filter_cons_of_neg (by simpa using h1)]
    · by_cases h2 : checkCollision p (advance v o) = true
      · exfalso
        have : (processObstacles p v H (o :: rest) acc sc).hit = true := by
          simp [processObstacles, h1, h2]
        rw [this] at hfalse
        exact absurd hfalse (by simp)
      · have hstep : processObstacles p v H (o :: rest) acc sc
            = processObstacles p v H rest (advance v o :: acc) sc := by
          simp [processObstacles, h1, h2]
        rw [hstep] at hfalse ⊢
        obtain ⟨hswipe, hobs⟩ := ih (advance v o :: acc) sc hfalse
        constructor
        · rw [hswipe, List.countP_cons_of_neg _ _ (by simpa using h1)]
        · rw [hobs, List.filter_cons_of_pos (by simpa using h1)]
          simp [List.reverse_cons, List.append_assoc]

/-- Characterization of the obstacle loop when a collision occurs: the
processing-order list splits as `l1 ++ o :: l2` where `o` is the first
colliding obstacle; `o` had not exited (removal is checked first, so
scoring and collision are mutually exclusive per obstacle); every obstacle
before `o` either exited (scoring 10) or did not overlap; the final score
is the incoming score plus 10 per exited obstacle processed before the
collision; and the obstacles after `o` in processing order (`l2`) are left
untouched in the array. -/
theorem processObstacles_hit (p : Entity) (v H : ℚ) :
    ∀ (l acc : List Entity) (sc : ℕ),
      (processObstacles p v H l acc sc).hit = true →
      ∃ l1 o l2, l = l1 ++ o :: l2 ∧
        ¬ (advance v o).y > H ∧
        checkCollision p (advance v o) = true ∧
        (∀ o1 ∈ l1, (advance v o1).y > H ∨ checkCollision p (advance v o1) = false) ∧
        (processObstacles p v H l acc sc).score
            = sc + 10 * l1.countP (fun o1 => decide ((advance v o1).y > H)) ∧
        (processObstacles p v H l acc sc).obstacles
            = l2.reverse ++ advance v o ::
                (((l1.filter (fun o1 => !decide ((advance v o1).y > H))).map
                    (advance v)).reverse ++ acc) := by
  intro l
  induction l with
  | nil =>
    intro acc sc htrue
    exfalso
    have : (processObstacles p v H [] acc sc).hit = false := by simp [processObstacles]
    rw [this] at htrue
    exact absurd htrue (by simp)
  | cons o rest ih =>
    intro acc sc htrue
    by_cases h1 : (advance v o).y > H
    · have hstep : processObstacles p v H (o :: rest) acc sc
          = processObstacles p v H rest acc (sc + 10) := by
        simp [processObstacles, h1]
      rw [hstep] at htrue ⊢
      obtain ⟨l1, oc, l2, hsplit, hnoexit, hcol, hpre, hswipe, hobs⟩ :=
        ih acc (sc + 10) htrue
      refine ⟨o :: l1, oc, l2, by rw [hsplit, List.cons_append], hnoexit, hcol, ?_, ?_, ?_⟩
      · intro o1 ho1
        rcases List.mem_cons.mp ho1 with h | h
        · exact Or.inl (h ▸ h1)
        · exact hpre o1 h
      · rw [hswipe, List.countP_cons_of_pos _ _ (by simpa using h1)]
        ring
      · rw [hobs, List.filter_cons_of_neg (by simpa using h1)]
    · by_cases h2 : checkCollision p (advance v o) = true
      · refine ⟨[], o, rest, by simp, h1, h2, by simp, ?_, ?_⟩
        · simp [processObstacles, h1, h2]
        · simp [processObstacles, h1, h2]
      · have hstep : processObstacles p v H (o :: rest) acc sc
            = processObstacles p v H rest (advance v o :: acc) sc := by
          simp [processObstacles, h1, h2]
        rw [hstep] at htrue ⊢
        obtain ⟨l1, oc, l2, hsplit, hnoexit, hcol, hpre, hswipe, hobs⟩ :=
          ih (advance v o :: acc) sc htrue
        refine ⟨o :: l1, oc, l2, by rw [hsplit, List.cons_append], hnoexit, hcol, ?_, ?_, ?_⟩
        · intro o1 ho1
          rcases List.mem_cons.mp ho1 with h | h
          · exact Or.inr (h ▸ (Bool.not_eq_true _).mp h2)
          · exact hpre o1 h
        · rw [hswipe, List.countP_cons_of_neg _ _ (by simpa using h1)]
        · rw [hobs, List.filter_cons_of_pos (by simpa using h1)]
          simp [List.reverse_cons, List.append_assoc]

/-- When every obstacle in the processing list neither exits nor overlaps
the player, the loop is a pure advancement: every obstacle moves down by
`gameSpeed`, nothing is removed, no collision is reported. -/
theorem processObstacles_all_safe (p : Entity) (v H : ℚ) :
    ∀ (l acc : List Entity) (sc : ℕ),
      (∀ o ∈ l, (advance v o).y ≤ H ∧ checkCollision p (advance v o) = false) →
      processObstacles p v H l acc sc = ⟨(l.map (advance v)).reverse ++ acc, sc, false⟩ := by
  intro l
  induction l with
  | nil => intro acc sc _; simp [processObstacles]
  | cons o rest ih =>
    intro acc sc hsafe
    have h1 : ¬ (advance v o).y > H := not_lt.mpr (hsafe o (List.mem_cons_self o rest)).1
    have h2 : checkCollision p (advance v o) = false :=
      (hsafe o (List.mem_cons_self o rest)).2
    have hstep : processObstacles p v H (o :: rest) acc sc
        = processObstacles p v H rest (advance v o :: acc) sc := by
      simp [processObstacles, h1, h2]
    rw [hstep, ih (advance v o :: acc) sc (fun o1 ho1 => hsafe o1 (List.mem_cons_of_mem o ho1))]
    simp [List.reverse_cons, List.append_assoc]

/-- C7: `checkCollision` returns true exactly when the four strict AABB
inequalities hold; it is symmetric in its two arguments; and two rectangles
sharing only an edge — `a = (0,0,10,10)`, `b = (10,0,10,10)` — do not
overlap. -/
theorem C7_overlaps :
    (∀ a b : Entity, checkCollision a b = true ↔
      (a.x < b.x + b.width ∧ a.x + a.width > b.x ∧
       a.y < b.y + b.height ∧ a.y + a.height > b.y)) ∧
    (∀ a b : Entity, checkCollision a b = checkCollision b a) ∧
    checkCollision { x := 0, y := 0, width := 10, height := 10, lane := 0 }
      { x := 10, y := 0, width := 10, height := 10, lane := 0 } = false := by
  refine ⟨fun a b => ?_, fun a b => ?_, ?_⟩
  · simp [checkCollision, and_assoc]
  · have h : ∀ a b : Entity, checkCollision a b = true ↔ checkCollision b a = true := by
      intro a b
      simp only [checkCollision, Bool.and_eq_true, decide_eq_true_eq, gt_iff_lt]
      tauto
    exact Bool.coe_iff_coe.mp (h a b)
  · with_unfolding_all decide

/-- C1 (amended): in a tick's obstacle phase, each obstacle that has
scrolled past the track height is removed and scores exactly 10, and such
an obstacle is never also collision-tested (removal is checked first); if
an obstacle overlaps the player, the engine goes to `gameOver` immediately
and the obstacles later in processing order are left untouched; the final
score reported on `gameOver` equals the score accumulated before this tick
PLUS 10 for each obstacle that exited earlier in the same tick's processing
(not, as the claim states, the pre-tick score alone). -/
theorem C1_obstacle_tick (s : GameState) :
    ((processObstacles s.player s.gameSpeed s.gameHeight
        (preLoop s).obstacles.reverse [] s.score).hit = false →
      (update s).gameState = s.gameState ∧
      (update s).score = s.score + 10 * (preLoop s).obstacles.reverse.countP
          (fun o => decide ((advance s.gameSpeed o).y > s.gameHeight))) ∧
    ((processObstacles s.player s.gameSpeed s.gameHeight
        (preLoop s).obstacles.reverse [] s.score).hit = true →
      (update s).gameState = "gameOver" ∧
      ∃ l1 o l2, (preLoop s).obstacles.reverse = l1 ++ o :: l2 ∧
        ¬ (advance s.gameSpeed o).y > s.gameHeight ∧
        checkCollision s.player (advance s.gameSpeed o) = true ∧
        (∀ o1 ∈ l1, (advance s.gameSpeed o1).y > s.gameHeight ∨
          checkCollision s.player (advance s.gameSpeed o1) = false) ∧
        (update s).score = s.score + 10 * l1.countP
            (fun o1 => decide ((advance s.gameSpeed o1).y > s.gameHeight)) ∧
        (update s).obstacles = l2.reverse ++ advance s.gameSpeed o ::
            (((l1.filter (fun o1 => !decide ((advance s.gameSpeed o1).y > s.gameHeight))).map
                (advance s.gameSpeed)).reverse ++ [])) := by
  rw [update_eq]
  dsimp only
  constructor
  · intro hfalse
    obtain ⟨hsc, _⟩ := processObstacles_no_hit s.player s.gameSpeed s.gameHeight
      (preLoop s).obstacles.reverse [] s.score hfalse
    rw [hfalse, if_neg (by decide : ¬ (false = true))]
    refine ⟨?_, ?_⟩
    · split <;> simp
    · split <;> simpa using hsc
  · intro htrue
    obtain ⟨l1, o, l2, hsplit, hnoexit, hcol, hpre, hsc, hobs⟩ :=
      processObstacles_hit s.player s.gameSpeed s.gameHeight
        (preLoop s).obstacles.reverse [] s.score htrue
    rw [htrue, if_pos rfl]
    exact ⟨by simp [gameOverState], l1, o, l2, hsplit, hnoexit, hcol, hpre,
      by simpa [gameOverState] using hsc, by simpa [gameOverState] using hobs⟩

/-- Closed instance of `C1_obstacle_tick`: a tick with no obstacles stays in
`playing` with an unchanged score. -/
theorem C1_obstacle_tick_witness :
    (update (freshRun 600)).gameState = "playing" ∧ (update (freshRun 600)).score = 0 := by
  have h := (C1_obstacle_tick (freshRun 600)).1 (by with_unfolding_all decide)
  obtain ⟨hs, hsc⟩ := h
  refine ⟨by rw [hs]; with_unfolding_all decide, by rw [hsc]; with_unfolding_all decide⟩

/-- The state used to refute C1's final-score clause: two lane-1 obstacles,
the one at the higher array index about to scroll off a 600-high track
(processed first, scoring 10), the other about to overlap the player. -/
def c1State : GameState :=
  { idleEnv 600 with
    gameState := "playing"
    obstacles :=
      [ { x := 165, y := 480, width := 70, height := 80, lane := 1 },
        { x := 165, y := 598, width := 70, height := 80, lane := 1 } ] }

/-- C1 counterexample: in a single `update()` from `c1State` (score 0), the
obstacle at the top of the array exits and scores +10, after which the
remaining obstacle collides; the engine reports final score 10, not the
score accumulated before the tick (0).  The claim's clause "the final score
reported equals the score accumulated before this tick" is false. -/
theorem C1_counterexample :
    c1State.gameState = "playing" ∧ c1State.score = 0 ∧
    (update c1State).gameState = "gameOver" ∧
    (update c1State).score = 10 := by
  refine ⟨rfl, rfl, ?_, ?_⟩ <;> with_unfolding_all decide

/-- Auxiliary: `update` never touches the spawn timer after `preLoop`. -/
theorem update_timer (s : GameState) :
    (update s).obstacleSpawnTimer = (preLoop s).obstacleSpawnTimer := by
  rw [update_eq]
  dsimp only
  split
  · rfl
  · split <;> rfl

/-- Auxiliary: every `update` increments the frame counter by one, whether
or not a collision ends the tick early. -/
theorem update_frameCount (s : GameState) :
    (update s).frameCount = s.frameCount + 1 := by
  rw [update_eq]
  dsimp only
  split
  · simp [gameOverState]
  · split <;> simp

/-- C2 (amended): per tick, the scroll speed never decreases and the spawn
interval never increases and never drops below 50; on a difficulty tick
(every 600th frame) that does not end in `gameOver`, the speed rises by
exactly 0.5 unconditionally — there is no 15.0 ceiling in the code — and
the interval takes exactly `Math.max(50, interval - 5)`; on every other
tick both are unchanged. -/
theorem C2_difficulty_ratchet (s : GameState) (h : (50 : ℚ) ≤ s.obstacleSpawnInterval) :
    s.gameSpeed ≤ (update s).gameSpeed ∧
    (update s).obstacleSpawnInterval ≤ s.obstacleSpawnInterval ∧
    (50 : ℚ) ≤ (update s).obstacleSpawnInterval ∧
    ((update s).gameState ≠ "gameOver" → (s.frameCount + 1) % 600 = 0 →
      (update s).gameSpeed = s.gameSpeed + 1 / 2 ∧
      (update s).obstacleSpawnInterval = max 50 (s.obstacleSpawnInterval - 5)) ∧
    ((s.frameCount + 1) % 600 ≠ 0 →
      (update s).gameSpeed = s.gameSpeed ∧
      (update s).obstacleSpawnInterval = s.obstacleSpawnInterval) := by
  rw [update_eq]
  dsimp only
  split
  · refine ⟨by simp [gameOverState], by simp [gameOverState],
      by simpa [gameOverState] using h, ?_, ?_⟩
    · intro hne _
      exact absurd (by simp [gameOverState]) hne
    · intro _
      exact ⟨by simp [gameOverState], by simp [gameOverState]⟩
  · split
    · next hmod =>
      have hmod' : (s.frameCount + 1) % 600 = 0 := by simpa using hmod
      refine ⟨by simp, ?_, ?_, fun _ _ => ⟨by simp, by simp⟩,
        fun hne => absurd hmod' hne⟩
      · simp only [preLoop_interval]
        exact max_le (by simpa using h) (by simp)
      · simp only [preLoop_interval]
        exact le_max_left _ _
    · next hmod =>
      refine ⟨by simp, by simp, by simpa using h, ?_, fun _ => ⟨by simp, by simp⟩⟩
      intro _ h600
      exfalso
      apply hmod
      simp [h600]

/-- Closed instance of `C2_difficulty_ratchet` at a freshly started run. -/
theorem C2_difficulty_ratchet_witness :
    ((50 : ℚ) ≤ (freshRun 600).obstacleSpawnInterval) ∧
    (freshRun 600).gameSpeed ≤ (update (freshRun 600)).gameSpeed :=
  ⟨by with_unfolding_all decide,
   (C2_difficulty_ratchet (freshRun 600) (by with_unfolding_all decide)).1⟩

/-- C2 counterexample: a run started in a 400×20 container with no input
held and the lane oracle constantly 0 (so no collision can ever occur —
spawned obstacles occupy x ∈ [65, 135], the player x ∈ [180, 220]) reaches
scroll speed 15.5 after 12600 ticks: the code applies `gameSpeed += 0.5`
every 600 frames with no ceiling, so the claimed 15.0 bound is false. -/
theorem C2_counterexample :
    (freshRun 20).gameState = "playing" ∧
    (freshRun 20).gameSpeed = 5 ∧
    (runTicks 12600 (freshRun 20)).gameSpeed = 31 / 2 ∧
    (15 : ℚ) < 31 / 2 := by
  refine ⟨rfl, rfl, ?_, by norm_num⟩
  rw [(calmRun 12600).2.2]
  norm_num

/-- C3 (amended): when the spawn timer reaches the spawn interval, the
spawn is unconditional — `spawnObstacle()` has no cap check, so the active
list entering the obstacle loop always grows by one, whatever its size —
and the timer is reset to 0; moreover, on such a tick in which no obstacle
exits or collides, the post-tick active count is the pre-tick count plus
one. -/
theorem C3_spawn_uncapped (s : GameState)
    (h : s.obstacleSpawnInterval ≤ ((s.obstacleSpawnTimer + 1 : ℕ) : ℚ)) :
    (preLoop s).obstacles.length = s.obstacles.length + 1 ∧
    (update s).obstacleSpawnTimer = 0 ∧
    ((∀ o ∈ (preLoop s).obstacles, (advance s.gameSpeed o).y ≤ s.gameHeight ∧
        checkCollision s.player (advance s.gameSpeed o) = false) →
      (update s).obstacles.length = s.obstacles.length + 1) := by
  have hcond : preLoop s =
      { spawnObstacle
          { s with frameCount := s.frameCount + 1,
                   obstacleSpawnTimer := s.obstacleSpawnTimer + 1 } with
        obstacleSpawnTimer := 0 } := by
    rw [preLoop_def, if_pos h]
  have hlen : (preLoop s).obstacles.length = s.obstacles.length + 1 := by
    rw [hcond]
    simp [spawnObstacle]
  refine ⟨hlen, by rw [update_timer, hcond], ?_⟩
  intro hsafe
  have hproc := processObstacles_all_safe s.player s.gameSpeed s.gameHeight
    (preLoop s).obstacles.reverse [] s.score
    (fun o ho => hsafe o (List.mem_reverse.mp ho))
  rw [update_eq]
  dsimp only
  rw [hproc]
  dsimp only
  rw [if_neg (by decide : ¬ (false = true))]
  split <;> simp [List.map_reverse, hlen]

/-- Closed instance of `C3_spawn_uncapped` with the timer one shy of the
interval. -/
theorem C3_spawn_uncapped_witness :
    ({ freshRun 600 with obstacleSpawnTimer := 99 }.obstacleSpawnInterval
        ≤ (({ freshRun 600 with obstacleSpawnTimer := 99 }.obstacleSpawnTimer + 1 : ℕ) : ℚ)) ∧
    (preLoop { freshRun 600 with obstacleSpawnTimer := 99 }).obstacles.length
      = { freshRun 600 with obstacleSpawnTimer := 99 }.obstacles.length + 1 :=
  ⟨by with_unfolding_all decide,
   (C3_spawn_uncapped { freshRun 600 with obstacleSpawnTimer := 99 }
     (by with_unfolding_all decide)).1⟩

/-- Helper: a lane-0 obstacle at a given height, as spawned into a 400-wide
track and advanced by the quiet run. -/
def laneZeroObs (y : ℚ) : Entity :=
  { x := 65, y := y, width := 70, height := 80, lane := 0 }

/-- The quiet 400×1000000 run, 100 ticks in (obstacles listed oldest
first, all in lane 0). -/
def c3State100 : GameState :=
  { freshRun 1000000 with
    frameCount := 100
    gameSpeed := 5
    obstacleSpawnTimer := 0
    obstacleSpawnInterval := 100
    randIdx := 1
    obstacles := [laneZeroObs (-75)] }

theorem c3Run100 : runTicks 100 (freshRun 1000000) = c3State100 := by
  with_unfolding_all rfl

/-- The quiet 400×1000000 run, 200 ticks in (obstacles listed oldest
first, all in lane 0). -/
def c3State200 : GameState :=
  { freshRun 1000000 with
    frameCount := 200
    gameSpeed := 5
    obstacleSpawnTimer := 0
    obstacleSpawnInterval := 100
    randIdx := 2
    obstacles := [laneZeroObs (425), laneZeroObs (-75)] }

theorem c3Run200 : runTicks 200 (freshRun 1000000) = c3State200 := by
  have h : (200 : ℕ) = 100 + 100 := rfl
  rw [h, runTicks_add, c3Run100]
  with_unfolding_all rfl

/-- The quiet 400×1000000 run, 300 ticks in (obstacles listed oldest
first, all in lane 0). -/
def c3State300 : GameState :=
  { freshRun 1000000 with
    frameCount := 300
    gameSpeed := 5
    obstacleSpawnTimer := 0
    obstacleSpawnInterval := 100
    randIdx := 3
    obstacles := [laneZeroObs (925), laneZeroObs (425), laneZeroObs (-75)] }

theorem c3Run300 : runTicks 300 (freshRun 1000000) = c3State300 := by
  have h : (300 : ℕ) = 200 + 100 := rfl
  rw [h, runTicks_add, c3Run200]
  with_unfolding_all rfl

/-- The quiet 400×1000000 run, 400 ticks in (obstacles listed oldest
first, all in lane 0). -/
def c3State400 : GameState :=
  { freshRun 1000000 with
    frameCount := 400
    gameSpeed := 5
    obstacleSpawnTimer := 0
    obstacleSpawnInterval := 100
    randIdx := 4
    obstacles := [laneZeroObs (1425), laneZeroObs (925), laneZeroObs (425), laneZeroObs (-75)] }

theorem c3Run400 : runTicks 400 (freshRun 1000000) = c3State400 := by
  have h : (400 : ℕ) = 300 + 100 := rfl
  rw [h, runTicks_add, c3Run300]
  with_unfolding_all rfl

/-- The quiet 400×1000000 run, 500 ticks in (obstacles listed oldest
first, all in lane 0). -/
def c3State500 : GameState :=
  { freshRun 1000000 with
    frameCount := 500
    gameSpeed := 5
    obstacleSpawnTimer := 0
    obstacleSpawnInterval := 100
    randIdx := 5
    obstacles := [laneZeroObs (1925), laneZeroObs (1425), laneZeroObs (925), laneZeroObs (425), laneZeroObs (-75)] }

theorem c3Run500 : runTicks 500 (freshRun 1000000) = c3State500 := by
  have h : (500 : ℕ) = 400 + 100 := rfl
  rw [h, runTicks_add, c3Run400]
  with_unfolding_all rfl

/-- The quiet 400×1000000 run, 600 ticks in (obstacles listed oldest
first, all in lane 0). -/
def c3State600 : GameState :=
  { freshRun 1000000 with
    frameCount := 600
    gameSpeed := 11/2
    obstacleSpawnTimer := 0
    obstacleSpawnInterval := 95
    randIdx := 6
    obstacles := [laneZeroObs (2425), laneZeroObs (1925), laneZeroObs (1425), laneZeroObs (925), laneZeroObs (425), laneZeroObs (-75)] }

theorem c3Run600 : runTicks 600 (freshRun 1000000) = c3State600 := by
  have h : (600 : ℕ) = 500 + 100 := rfl
  rw [h, runTicks_add, c3Run500]
  with_unfolding_all rfl

/-- The quiet 400×1000000 run, 700 ticks in (obstacles listed oldest
first, all in lane 0). -/
def c3State700 : GameState :=
  { freshRun 1000000 with
    frameCount := 700
    gameSpeed := 11/2
    obstacleSpawnTimer := 5
    obstacleSpawnInterval := 95
    randIdx := 7
    obstacles := [laneZeroObs (2975), laneZeroObs (2475), laneZeroObs (1975), laneZeroObs (1475), laneZeroObs (975), laneZeroObs (475), laneZeroObs (-47)] }

theorem c3Run700 : runTicks 700 (freshRun 1000000) = c3State700 := by
  have h : (700 : ℕ) = 600 + 100 := rfl
  rw [h, runTicks_add, c3Run600]
  with_unfolding_all rfl

/-- The quiet 400×1000000 run, 800 ticks in (obstacles listed oldest
first, all in lane 0). -/
def c3State800 : GameState :=
  { freshRun 1000000 with
    frameCount := 800
    gameSpeed := 11/2
    obstacleSpawnTimer := 10
    obstacleSpawnInterval := 95
    randIdx := 8
    obstacles := [laneZeroObs (3525), laneZeroObs (3025), laneZeroObs (2525), laneZeroObs (2025), laneZeroObs (1525), laneZeroObs (1025), laneZeroObs (503), laneZeroObs (-39/2)] }

theorem c3Run800 : runTicks 800 (freshRun 1000000) = c3State800 := by
  have h : (800 : ℕ) = 700 + 100 := rfl
  rw [h, runTicks_add, c3Run700]
  with_unfolding_all rfl

/-- The quiet 400×1000000 run, 900 ticks in (obstacles listed oldest
first, all in lane 0). -/
def c3State900 : GameState :=
  { freshRun 1000000 with
    frameCount := 900
    gameSpeed := 11/2
    obstacleSpawnTimer := 15
    obstacleSpawnInterval := 95
    randIdx := 9
    obstacles := [laneZeroObs (4075), laneZeroObs (3575), laneZeroObs (3075), laneZeroObs (2575), laneZeroObs (2075), laneZeroObs (1575), laneZeroObs (1053), laneZeroObs (1061/2), laneZeroObs (8)] }

theorem c3Run900 : runTicks 900 (freshRun 1000000) = c3State900 := by
  have h : (900 : ℕ) = 800 + 100 := rfl
  rw [h, runTicks_add, c3Run800]
  with_unfolding_all rfl

/-- The quiet 400×1000000 run, 1000 ticks in (obstacles listed oldest
first, all in lane 0). -/
def c3State1000 : GameState :=
  { freshRun 1000000 with
    frameCount := 1000
    gameSpeed := 11/2
    obstacleSpawnTimer := 20
    obstacleSpawnInterval := 95
    randIdx := 10
    obstacles := [laneZeroObs (4625), laneZeroObs (4125), laneZeroObs (3625), laneZeroObs (3125), laneZeroObs (2625), laneZeroObs (2125), laneZeroObs (1603), laneZeroObs (2161/2), laneZeroObs (558), laneZeroObs (71/2)] }

theorem c3Run1000 : runTicks 1000 (freshRun 1000000) = c3State1000 := by
  have h : (1000 : ℕ) = 900 + 100 := rfl
  rw [h, runTicks_add, c3Run900]
  with_unfolding_all rfl

/-- C3 counterexample: in a run started in a 400×1000000 container (no
input held, lane oracle constantly 0 so no collision and, with the tall
track, no despawn), the active obstacle count reaches 11 — beyond the
claimed maximum of 10 — at tick 1075: spawns occur at ticks 100..600
(interval 100), then 695, 790, 885, 980, 1075 (interval 95 after the frame
600 difficulty step).  The code's spawnObstacle() has no cap. -/
theorem C3_counterexample :
    (freshRun 1000000).obstacles.length = 0 ∧
    (runTicks 1075 (freshRun 1000000)).obstacles.length = 11 ∧
    10 < (runTicks 1075 (freshRun 1000000)).obstacles.length := by
  have h : (1075 : ℕ) = 1000 + 75 := rfl
  refine ⟨rfl, ?_, ?_⟩ <;>
    rw [h, runTicks_add, c3Run1000] <;> with_unfolding_all decide

/-- Modelled from the spec: the Obstacle Pool of §4.2.  The repository's
`game.js` contains no pool — object pooling is listed in `DEPLOYMENT.md`
under Future Optimizations — so the spec's described pool is modelled here
for comparison against the code's actual spawn/despawn behaviour. -/
structure Pool where
  free : List Entity
  deriving Repr, DecidableEq

/-- Modelled from the spec: `acquire(lane, trackWidth)` returns a recycled
instance with position and lane reinitialized when the pool is non-empty,
and allocates a new instance only when it is empty. -/
def Pool.acquire (p : Pool) (lane : ℕ) (trackWidth : ℚ) : Entity × Pool :=
  match p.free with
  | o :: rest =>
    ({ o with x := lanes.getD lane 0 * trackWidth - 35, y := -80, lane := (lane : ℤ) },
     ⟨rest⟩)
  | [] => (newObstacle lane trackWidth, ⟨[]⟩)

/-- Modelled from the spec: `release(obstacle)` returns the instance to the
pool if the pool holds fewer than the cap of 20, otherwise discards it. -/
def Pool.release (p : Pool) (o : Entity) : Pool :=
  if p.free.length < 20 then ⟨p.free ++ [o]⟩ else p

/-- An obstacle one step short of leaving a 600-high track. -/
def c4Exiting : Entity := { x := 65, y := 598, width := 70, height := 80, lane := 0 }

/-- A playing state whose only obstacle is about to scroll off screen. -/
def c4State : GameState :=
  { idleEnv 600 with gameState := "playing", obstacles := [c4Exiting] }

/-- C4 counterexample: the code does not manage obstacles through a pool.
When the obstacle scrolls off, `update` removes it and the engine state —
which has no pool component at all (see `GameState`) — retains nothing;
the next `spawnObstacle()` call unconditionally allocates a brand-new
record (`y = -80`), distinct from the discarded instance.  Under the
spec-modelled pool the released instance would have been retained
(`Pool.release` on an empty pool keeps it) and the next `Pool.acquire`
would have recycled it without allocating. -/
theorem C4_counterexample :
    (update c4State).obstacles = [] ∧
    (update c4State).score = c4State.score + 10 ∧
    (spawnObstacle (update c4State)).obstacles = [newObstacle 0 400] ∧
    (Pool.release ⟨[]⟩ (advance 5 c4Exiting)).free = [advance 5 c4Exiting] ∧
    (Pool.acquire (Pool.release ⟨[]⟩ (advance 5 c4Exiting)) 0 400).2.free = [] ∧
    newObstacle 0 400 ≠ advance 5 c4Exiting := by
  refine ⟨?_, ?_, ?_, ?_, ?_, ?_⟩ <;> with_unfolding_all decide

/-- C4 (amended): obstacles are not pooled.  Every spawn appends a freshly
allocated obstacle record, unconditionally; and in a collision-free tick
every obstacle past the track height is removed outright — nothing in the
engine state retains it (the state has no pool field), so there is no
recycled-acquire, no release-to-pool, and no 20-instance retention cap in
the code. -/
theorem C4_no_pool :
    (∀ s : GameState, (spawnObstacle s).obstacles
        = s.obstacles ++ [newObstacle (s.laneStream s.randIdx % 3) s.gameWidth]) ∧
    (∀ (p : Entity) (v H : ℚ) (l : List Entity) (sc : ℕ),
      (processObstacles p v H l [] sc).hit = false →
      ∀ o ∈ (processObstacles p v H l [] sc).obstacles, o.y ≤ H) := by
  refine ⟨fun s => rfl, ?_⟩
  intro p v H l sc hfalse o ho
  obtain ⟨-, hobs⟩ := processObstacles_no_hit p v H l [] sc hfalse
  rw [hobs] at ho
  simp only [List.append_nil, List.mem_reverse, List.mem_map] at ho
  obtain ⟨o1, ho1, rfl⟩ := ho
  have hf := List.of_mem_filter ho1
  simp only [Bool.not_eq_eq_eq_not, Bool.not_true, decide_eq_false_iff_not, not_lt] at hf
  exact hf

/-- Closed instance of `C4_no_pool`: a surviving obstacle stays on-screen
after a collision-free tick. -/
theorem C4_no_pool_witness :
    ((processObstacles (idleEnv 600).player 5 600 [laneZeroObs 100] [] 0).hit = false) ∧
    (∀ o ∈ (processObstacles (idleEnv 600).player 5 600 [laneZeroObs 100] [] 0).obstacles,
      o.y ≤ 600) :=
  ⟨by with_unfolding_all decide,
   C4_no_pool.2 (idleEnv 600).player 5 600 [laneZeroObs 100] 0
     (by with_unfolding_all decide)⟩

/-- A playing state in lane 2 with both a held left-arrow key and a
leftward joystick deflection beyond the 20px threshold, on a debounce tick
(`frameCount % 10 = 0`). -/
def c5State : GameState :=
  { idleEnv 600 with
    gameState := "playing"
    player := { (idleEnv 600).player with lane := 2 }
    keysLeft := true
    touchActive := true
    touchX := -30
    frameCount := 10 }

/-- C5 counterexample: the keyboard branch and the joystick branch of
`handleInput()` are applied independently in the same tick, so with both
asserting left the lane moves from 2 to 0 in one tick — an absolute change
of 2, refuting "transitions only by ±1, never skipping a lane". -/
theorem C5_counterexample :
    c5State.player.lane = 2 ∧ (handleInput c5State).player.lane = 0 := by
  constructor <;> with_unfolding_all decide

/-- C5 (amended): the lane index stays in {0,1,2} at every mutation site —
the keyboard and joystick branches of `handleInput` and the swipe handler
are all bounds-checked, and `touchstart` does not touch the lane — but the
per-tick change of `handleInput` is bounded by 2, not 1: keyboard and
joystick are applied independently in one tick and can each move one lane
in the same direction (see `C5_counterexample`); a single swipe moves at
most one lane. -/
theorem C5_lane_bounds (s : GameState) (h0 : 0 ≤ s.player.lane) (h2 : s.player.lane ≤ 2) :
    ((0 ≤ (handleInput s).player.lane ∧ (handleInput s).player.lane ≤ 2) ∧
      |(handleInput s).player.lane - s.player.lane| ≤ 2) ∧
    (∀ x : ℚ, (0 ≤ (onTouchEnd s x).player.lane ∧ (onTouchEnd s x).player.lane ≤ 2) ∧
      |(onTouchEnd s x).player.lane - s.player.lane| ≤ 1) ∧
    (∀ x : ℚ, (onTouchStart s x).player.lane = s.player.lane) := by
  refine ⟨?_, ?_, fun x => rfl⟩
  · have heq : (handleInput s).player.lane
        = (joystick (keyboardRight (keyboardLeft s))).player.lane := rfl
    have e1 := keyboardLeft_lane s
    have e2 := keyboardRight_lane (keyboardLeft s)
    have e3 := joystick_lane (keyboardRight (keyboardLeft s))
    rw [keyboardLeft_frameCount] at e2
    rw [keyboardRight_frameCount, keyboardLeft_frameCount] at e3
    rw [heq]
    simp only [abs_le]
    omega
  · intro x
    unfold onTouchEnd
    dsimp only
    split_ifs <;>
      simp only [Bool.and_eq_true, decide_eq_true_eq, abs_le, not_and, not_lt] at * <;>
      omega

/-- Closed instance of `C5_lane_bounds` at the fresh lane-1 start. -/
theorem C5_lane_bounds_witness :
    (0 ≤ (freshRun 600).player.lane ∧ (freshRun 600).player.lane ≤ 2) ∧
    (0 ≤ (handleInput (freshRun 600)).player.lane ∧
      (handleInput (freshRun 600)).player.lane ≤ 2) :=
  ⟨⟨by with_unfolding_all decide, by with_unfolding_all decide⟩,
   (C5_lane_bounds (freshRun 600) (by with_unfolding_all decide)
     (by with_unfolding_all decide)).1.1⟩

/-- A playing state in lane 2 with no keys or joystick, ready for swipes. -/
def c6State : GameState :=
  { idleEnv 600 with
    gameState := "playing"
    player := { (idleEnv 600).player with lane := 2 } }

/-- C6 counterexample: swipe gestures are not debounced at all.  Two
complete swipe gestures (touchstart at x 100, touchend at x 30: a 70px
leftward swipe, beyond the 50px threshold) with no tick in between move
the lane from 2 to 0 — two accepted lane changes inside one 10-tick
window, refuting "at most one lane change in any window of 10 consecutive
ticks". -/
theorem C6_counterexample :
    c6State.player.lane = 2 ∧
    (onTouchEnd (onTouchStart (onTouchEnd (onTouchStart c6State 100) 30) 100) 30).player.lane
      = 0 := by
  constructor <;> with_unfolding_all decide

/-- C6 (amended): the keyboard and joystick paths are gated on
`frameCount % 10 === 0`, so on the other nine of every ten ticks
`handleInput` leaves the lane unchanged (at most one change per source per
10-tick window) — but the two sources fire independently in the same
gated tick (see `C5_counterexample`), and swipe gestures bypass the gate
entirely (see `C6_counterexample`). -/
theorem C6_tick_debounce (s : GameState) (h : s.frameCount % 10 ≠ 0) :
    (handleInput s).player.lane = s.player.lane := by
  have heq : (handleInput s).player.lane
      = (joystick (keyboardRight (keyboardLeft s))).player.lane := rfl
  have e1 := keyboardLeft_lane s
  have e2 := keyboardRight_lane (keyboardLeft s)
  have e3 := joystick_lane (keyboardRight (keyboardLeft s))
  rw [keyboardLeft_frameCount] at e2
  rw [keyboardRight_frameCount, keyboardLeft_frameCount] at e3
  rw [heq]
  omega

/-- Closed instance of `C6_tick_debounce` off the debounce tick. -/
theorem C6_tick_debounce_witness :
    ({ idleEnv 600 with frameCount := 3 }.frameCount % 10 ≠ 0) ∧
    (handleInput { idleEnv 600 with frameCount := 3 }).player.lane
      = { idleEnv 600 with frameCount := 3 }.player.lane :=
  ⟨by decide, C6_tick_debounce { idleEnv 600 with frameCount := 3 } (by decide)⟩

/-- Modelled from the spec: §4.5 step 6 — "Advance every active obstacle's
y-position by `speed * deltaTime`".  Absent from the code: `update()` runs
`obstacle.y += this.gameSpeed` with no delta-time factor anywhere. -/
def advanceObstacleSpec (speed deltaTime : ℚ) (o : Entity) : Entity :=
  { o with y := o.y + speed * deltaTime }

/-- A playing state with one mid-screen lane-0 obstacle (no spawn or
despawn or collision pending this tick). -/
def c8State : GameState :=
  { idleEnv 600 with gameState := "playing", obstacles := [laneZeroObs 0] }

/-- C8 counterexample: a tick advances the obstacle by exactly `gameSpeed`
(5), with no dependence on elapsed wall-clock time — `update()` takes no
delta-time input at all.  Under the spec's `speed * deltaTime` rule, a
frame delivered after 2 time units (e.g. a 30Hz display with the unit
tuned for 60Hz) would advance it by 10; the two disagree, so the code's
scroll speed is frame-rate-coupled, not wall-clock normalized (the only
wall-clock reading, in `updateFPS()`, feeds the FPS display). -/
theorem C8_counterexample :
    (update c8State).obstacles = [laneZeroObs 5] ∧
    advanceObstacleSpec 5 2 (laneZeroObs 0) = laneZeroObs 10 ∧
    laneZeroObs 5 ≠ laneZeroObs 10 := by
  refine ⟨?_, ?_, ?_⟩ <;> with_unfolding_all decide

/-- C8 (amended): on a tick with no spawn due and no obstacle exiting or
colliding, `update` maps every obstacle's `y` up by exactly `gameSpeed` —
a fixed per-frame step independent of frame delivery timing. -/
theorem C8_advance_per_tick (s : GameState)
    (hspawn : ((s.obstacleSpawnTimer + 1 : ℕ) : ℚ) < s.obstacleSpawnInterval)
    (hsafe : ∀ o ∈ s.obstacles, (advance s.gameSpeed o).y ≤ s.gameHeight ∧
      checkCollision s.player (advance s.gameSpeed o) = false) :
    (update s).obstacles = s.obstacles.map (advance s.gameSpeed) := by
  have hpre : preLoop s =
      { s with frameCount := s.frameCount + 1,
               obstacleSpawnTimer := s.obstacleSpawnTimer + 1 } := by
    rw [preLoop_def, if_neg (not_le.mpr hspawn)]
  have hobs : (preLoop s).obstacles = s.obstacles := by rw [hpre]
  have hproc := processObstacles_all_safe s.player s.gameSpeed s.gameHeight
    s.obstacles.reverse [] s.score (fun o ho => hsafe o (List.mem_reverse.mp ho))
  rw [update_eq]
  dsimp only
  rw [hobs, hproc]
  dsimp only
  rw [if_neg (by decide : ¬ (false = true))]
  split <;> simp [List.map_reverse]

/-- Closed instance of `C8_advance_per_tick` at `c8State`. -/
theorem C8_advance_per_tick_witness :
    (((c8State.obstacleSpawnTimer + 1 : ℕ) : ℚ) < c8State.obstacleSpawnInterval) ∧
    (update c8State).obstacles = c8State.obstacles.map (advance c8State.gameSpeed) :=
  ⟨by with_unfolding_all decide,
   C8_advance_per_tick c8State (by with_unfolding_all decide)
     (by with_unfolding_all decide)⟩

/-- Modelled from the spec: the quality state of §4.6's Adaptive Quality
Controller — a quality level in [0.5, 1.0] and a low-frame-rate streak
counter.  No such state exists in `game.js` (adaptive quality is listed in
`DEPLOYMENT.md` under Future Optimizations). -/
structure QualityState where
  level : ℚ
  streak : ℕ
  deriving Repr, DecidableEq

/-- Modelled from the spec: one sampling window of the Adaptive Quality
Controller's decrease path — if the observed rate is below 45 for more
than 3 consecutive windows, drop the quality by 0.25 (floor 0.5) and reset
the streak; any other reading resets the streak.  (The spec's ≥55
increase path goes through a deferred recheck and is not modelled — only
the decrease path is needed to compare against the code.) -/
def qualityWindowStep (q : QualityState) (observedRate : ℚ) : QualityState :=
  if observedRate < 45 then
    if 3 < q.streak + 1 then { level := max (1/2) (q.level - 1/4), streak := 0 }
    else { q with streak := q.streak + 1 }
  else { q with streak := 0 }

/-- C9 counterexample: feeding `updateFPS` four consecutive 500ms windows
each containing a single frame (observed rate 2 fps, far below 45), the
spec-modelled controller drops the quality from 1 to 0.75; the code merely
stores 2 in the `fps` display field and leaves its only
rendering-resolution scale, `pixelRatio`, untouched at its startup value 2
— which is not even inside the claimed [0.5, 1.0] range.  `game.js` has no
quality level and never reacts to a low frame rate. -/
theorem C9_counterexample :
    (updateFPS (updateFPS (updateFPS (updateFPS (idleEnv 600) 500) 1000) 1500) 2000).fps
      = 2 ∧
    ((2 : ℤ) < 45) ∧
    (updateFPS (updateFPS (updateFPS (updateFPS (idleEnv 600) 500) 1000) 1500) 2000).pixelRatio
      = (idleEnv 600).pixelRatio ∧
    (idleEnv 600).pixelRatio = 2 ∧
    (qualityWindowStep (qualityWindowStep (qualityWindowStep
        (qualityWindowStep ⟨1, 0⟩ 2) 2) 2) 2).level = 3 / 4 ∧
    ¬ ((3 : ℚ) / 4 = 1) := by
  refine ⟨?_, ?_, ?_, ?_, ?_, ?_⟩ <;> with_unfolding_all decide

/-- C9 (amended): `updateFPS` only measures.  Per call it never touches the
rendering scale (`pixelRatio`) or any simulation state; once at least 500ms
have accumulated it stores the rounded observed rate
(`frames * 1000 / accumulated`) in the `fps` display field and resets the
accumulators, and below 500ms it only accumulates.  There is no quality
level, no streak counter, and no reaction to low frame rates anywhere in
the code. -/
theorem C9_fps_measurement (s : GameState) (now : ℚ) :
    (updateFPS s now).pixelRatio = s.pixelRatio ∧
    (updateFPS s now).gameState = s.gameState ∧
    (updateFPS s now).gameSpeed = s.gameSpeed ∧
    (updateFPS s now).obstacles = s.obstacles ∧
    (updateFPS s now).score = s.score ∧
    (updateFPS s now).lastFrameTime = now ∧
    (500 ≤ s.frameTimeAccumulator + (now - s.lastFrameTime) →
      (updateFPS s now).fps
          = jsRound (((s.frameCountForFPS + 1 : ℕ) : ℚ) * 1000
              / (s.frameTimeAccumulator + (now - s.lastFrameTime))) ∧
      (updateFPS s now).frameTimeAccumulator = 0 ∧
      (updateFPS s now).frameCountForFPS = 0) ∧
    (s.frameTimeAccumulator + (now - s.lastFrameTime) < 500 →
      (updateFPS s now).fps = s.fps ∧
      (updateFPS s now).frameTimeAccumulator
          = s.frameTimeAccumulator + (now - s.lastFrameTime) ∧
      (updateFPS s now).frameCountForFPS = s.frameCountForFPS + 1) := by
  unfold updateFPS
  dsimp only
  split_ifs with hcond
  · refine ⟨rfl, rfl, rfl, rfl, rfl, rfl, fun _ => ⟨?_, rfl, rfl⟩, fun hlt => ?_⟩
    · push_cast
      rfl
    · exact absurd hcond (not_le.mpr hlt)
  · exact ⟨rfl, rfl, rfl, rfl, rfl, rfl, fun hge => absurd hge hcond,
      fun _ => ⟨rfl, rfl, rfl⟩⟩

/-- Closed instance of `C9_fps_measurement` on a full 500ms window. -/
theorem C9_fps_measurement_witness :
    ((500 : ℚ) ≤ (idleEnv 600).frameTimeAccumulator + (500 - (idleEnv 600).lastFrameTime)) ∧
    (updateFPS (idleEnv 600) 500).fps
      = jsRound ((((idleEnv 600).frameCountForFPS + 1 : ℕ) : ℚ) * 1000
          / ((idleEnv 600).frameTimeAccumulator + (500 - (idleEnv 600).lastFrameTime))) :=
  ⟨by with_unfolding_all decide,
   ((C9_fps_measurement (idleEnv 600) 500).2.2.2.2.2.2.1
     (by with_unfolding_all decide)).1⟩

/-- C10: `startGame()` resets score to 0, speed to 5, lane to 1, the
obstacle list to empty, the spawn timer to 0 and the frame counter to 0 and
enters state `'playing'`, but leaves `obstacleSpawnInterval` at whatever
value the previous run drove it down to — it is not restored to 100. -/
theorem C10_startGame (s : GameState) :
    (startGame s).gameState = "playing" ∧
    (startGame s).score = 0 ∧
    (startGame s).gameSpeed = 5 ∧
    (startGame s).player.lane = 1 ∧
    (startGame s).obstacles = [] ∧
    (startGame s).obstacleSpawnTimer = 0 ∧
    (startGame s).frameCount = 0 ∧
    (startGame s).obstacleSpawnInterval = s.obstacleSpawnInterval := by
  simp [startGame]

end EndlessDriver
